import Mathlib

/-!
# Verification of the dock-widget tab interaction controller

Shallow embedding of DockWidgetTab.cpp (Qt Advanced Docking System):
the draggable tab widget of a docking-panel library.  Mouse-event
handlers are modelled as pure functions from an environment (read-only
answers of the collaborator objects: dock area, container, dock widget,
application) and the tab state to a new tab state together with a list
of observable effects (emitted notifications, requests sent to
collaborators, default frame handling).
-/

namespace AdsTab

/-- Qt QPoint: a pair of integer coordinates. -/
structure QPoint where
  x : Int
  y : Int
deriving DecidableEq, Repr

/-- Qt QSize: integer width and height. -/
structure QSize where
  width : Int
  height : Int
deriving DecidableEq, Repr

/-- The default-constructed QPoint(), value (0, 0). -/
def QPoint.null : QPoint := ⟨0, 0⟩

/-- QPoint::isNull(): true exactly when both coordinates are zero. -/
def QPoint.isNull (p : QPoint) : Bool := p.x = 0 && p.y = 0

instance : Sub QPoint := ⟨fun a b => ⟨a.x - b.x, a.y - b.y⟩⟩

/-- QPoint::manhattanLength(): the sum of the absolute values of the
coordinates. -/
def QPoint.manhattanLength (p : QPoint) : Int := |p.x| + |p.y|

/-- QPoint::setY(0) applied to a fresh copy, as in moveTab. -/
def QPoint.withYZero (p : QPoint) : QPoint := ⟨p.x, 0⟩

/-- The different dragging states (enum eDragState). -/
inductive eDragState where
  | DraggingInactive
  | DraggingMousePressed
  | DraggingTab
  | DraggingFloatingWidget
deriving DecidableEq, Repr

/-- Mouse buttons relevant to the handlers. -/
inductive MouseButton where
  | left
  | right
  | middle
deriving DecidableEq, Repr

/-- The mutable private state of one tab (DockWidgetTabPrivate).
The DockArea back-reference is modelled by whether it is non-null;
its queried properties live in the environment.  The floating-widget
reference is modelled as an Option: none is the null pointer. -/
structure TabState where
  dragStartMousePosition : QPoint
  isActiveTab : Bool
  dockArea : Bool
  dragState : eDragState
  floatingWidget : Option Unit
  icon : Option Nat
deriving DecidableEq, Repr

/-- The state established by the constructor: default QPoint press
position, inactive, no area, DraggingInactive, null floating widget,
default icon. -/
def initState : TabState :=
  { dragStartMousePosition := QPoint.null
    isActiveTab := false
    dockArea := false
    dragState := eDragState.DraggingInactive
    floatingWidget := none
    icon := none }

/-- Read-only answers of the collaborator objects during one event.
DockWidget->dockAreaWidget() and the DockArea back-reference denote the
same owning-area object, so its count() is modelled once (areaCount).
indexOfContentByTitlePos returns -1 when no tab matches the position,
exactly as the C++ collaborator does. -/
structure Env where
  containerIsFloating : Bool
  visibleDockAreaCount : Int
  areaCount : Int
  tabIndex : Int
  indexOfContentByTitlePos : QPoint → Int
  titleAreaContains : QPoint → Bool
  mapFromGlobal : QPoint → QPoint
  mapToParent : QPoint → QPoint
  dockWidgetMovable : Bool
  startDragDistance : Int
  areaSize : QSize

/-- Observable effects of one handler invocation, in program order:
signals emitted, requests issued to collaborators, widget motion and
default QFrame handling. -/
inductive Effect where
  | clicked
  | activeTabChanged
  | reorderDockWidget (fromIndex toIndex : Int)
  | newFloatingFromDockWidget
  | newFloatingFromDockArea
  | startFloatingAt (pos : QPoint) (size : QSize)
  | overlayOuterOnly
  | moveTo (p : QPoint)
  | raiseTab
  | moveFloating
  | iconVisible
  | unpolishPolishTab
  | unpolishPolishTitle
  | updateWidget
  | frameMousePressEvent
  | frameMouseReleaseEvent
  | frameMouseMoveEvent
deriving DecidableEq, Repr

/-- True exactly on the clicked notification. -/
def Effect.isClicked : Effect → Bool
  | Effect.clicked => true
  | _ => false

/-- True exactly on the active-changed notification. -/
def Effect.isActiveTabChanged : Effect → Bool
  | Effect.activeTabChanged => true
  | _ => false

/-- True exactly on a restyle of the tab widget itself. -/
def Effect.isRestyleTab : Effect → Bool
  | Effect.unpolishPolishTab => true
  | _ => false

/-- Number of clicked notifications in an effect list. -/
def countClicked (es : List Effect) : Nat := es.countP Effect.isClicked

/-- Number of active-changed notifications in an effect list. -/
def countActiveChanged (es : List Effect) : Nat :=
  es.countP Effect.isActiveTabChanged

/-- Number of tab restyles in an effect list. -/
def countRestyleTab (es : List Effect) : Nat := es.countP Effect.isRestyleTab

/-- A mouse-move event: whether the left button is held (ev->buttons()
masked with LeftButton), the widget-local position (ev->pos()) and the
global position (ev->globalPos()). -/
structure MoveEvent where
  leftButtonDown : Bool
  pos : QPoint
  globalPos : QPoint
deriving DecidableEq, Repr

/-- DockWidgetTabPrivate::startFloating().  Declines (returns false, no
state change, no effects) when the container is already floating with a
single visible dock area whose area holds a single tab.  Otherwise sets
DragState to DraggingFloatingWidget, creates the floating container
from the dock widget (area holds more than one tab) or from the whole
dock area (otherwise), starts it at the recorded press position with
the area's current size, restricts the container overlay to the outer
dock areas, and stores the new floating-widget reference. -/
def startFloating (env : Env) (s : TabState) : Bool × TabState × List Effect :=
  if env.containerIsFloating = true ∧ env.visibleDockAreaCount = 1
      ∧ env.areaCount = 1 then
    (false, s, [])
  else
    let createEffect :=
      if env.areaCount > 1 then Effect.newFloatingFromDockWidget
      else Effect.newFloatingFromDockArea
    (true,
     { s with dragState := eDragState.DraggingFloatingWidget
              floatingWidget := some () },
     [createEffect,
      Effect.startFloatingAt s.dragStartMousePosition env.areaSize,
      Effect.overlayOuterOnly])

/-- CDockWidgetTab::mousePressEvent.  A left-button press records the
local position and enters DraggingMousePressed; any other button is
forwarded to QFrame::mousePressEvent and changes nothing. -/
def mousePressEvent (s : TabState) (button : MouseButton) (pos : QPoint) :
    TabState × List Effect :=
  if button = MouseButton.left then
    ({ s with dragStartMousePosition := pos
              dragState := eDragState.DraggingMousePressed }, [])
  else
    (s, [Effect.frameMousePressEvent])

/-- CDockWidgetTab::mouseReleaseEvent.  In DraggingTab with a dock area
set, hit-tests the release position, falls back to count()-1 when the
hit-test returns -1, and issues the reorder request; emits clicked when
the recorded press position is not the null point; always resets the
press position to QPoint() and the drag state to DraggingInactive, then
forwards to QFrame::mouseReleaseEvent. -/
def mouseReleaseEvent (env : Env) (s : TabState) (globalPos : QPoint) :
    TabState × List Effect :=
  let reorderEs :=
    if s.dragState = eDragState.DraggingTab ∧ s.dockArea = true then
      let pos := env.mapFromGlobal globalPos
      let fromIndex := env.tabIndex
      let hitIndex := env.indexOfContentByTitlePos pos
      let toIndex := if hitIndex = -1 then env.areaCount - 1 else hitIndex
      [Effect.reorderDockWidget fromIndex toIndex]
    else []
  let clickEs :=
    if s.dragStartMousePosition.isNull = false then [Effect.clicked] else []
  ({ s with dragStartMousePosition := QPoint.null
            dragState := eDragState.DraggingInactive },
   reorderEs ++ clickEs ++ [Effect.frameMouseReleaseEvent])

/-- DockWidgetTabPrivate::moveTab, invoked while in DraggingTab: move
the tab to the parent-mapped position minus the press offset with the
vertical coordinate forced to 0, and raise it above its siblings. -/
def moveTabEffects (env : Env) (s : TabState) (ev : MoveEvent) : List Effect :=
  if s.dragState = eDragState.DraggingTab then
    [Effect.moveTo
      ((env.mapToParent ev.pos - s.dragStartMousePosition).withYZero),
     Effect.raiseTab]
  else []

/-- CDockWidgetTab::mouseMoveEvent.  Without the left button, or in
DraggingInactive, forces DraggingInactive and forwards to the frame.
In DraggingFloatingWidget delegates to the floating widget and forwards
to the frame.  Otherwise: in DraggingTab moves the tab horizontally and
raises it; then, outside the title area, attempts startFloating when the
dock widget is movable; inside the title area, enters DraggingTab when
the area holds more than one tab and the Manhattan distance from the
press position reaches the application's start-drag distance; otherwise
forwards to the frame. -/
def mouseMoveEvent (env : Env) (s : TabState) (ev : MoveEvent) :
    TabState × List Effect :=
  if ev.leftButtonDown = false ∨ s.dragState = eDragState.DraggingInactive then
    ({ s with dragState := eDragState.DraggingInactive },
     [Effect.frameMouseMoveEvent])
  else if s.dragState = eDragState.DraggingFloatingWidget then
    (s, [Effect.moveFloating, Effect.frameMouseMoveEvent])
  else
    if env.titleAreaContains ev.globalPos = false then
      if env.dockWidgetMovable then
        ((startFloating env s).2.1,
         moveTabEffects env s ev ++ (startFloating env s).2.2)
      else
        (s, moveTabEffects env s ev)
    else if env.areaCount > 1
        ∧ (ev.pos - s.dragStartMousePosition).manhattanLength
            ≥ env.startDragDistance then
      ({ s with dragState := eDragState.DraggingTab }, moveTabEffects env s ev)
    else
      (s, moveTabEffects env s ev ++ [Effect.frameMouseMoveEvent])

/-- CDockWidgetTab::setActiveTab.  A no-op when the stored flag already
equals the argument; otherwise stores the flag, restyles the tab and
its title label, schedules a repaint and emits activeTabChanged. -/
def setActiveTab (s : TabState) (active : Bool) : TabState × List Effect :=
  if s.isActiveTab = active then
    (s, [])
  else
    ({ s with isActiveTab := active },
     [Effect.unpolishPolishTab, Effect.unpolishPolishTitle,
      Effect.updateWidget, Effect.activeTabChanged])

/-- CDockWidgetTab::setIcon: stores the icon and makes the icon label
visible. -/
def setIcon (s : TabState) (i : Nat) : TabState × List Effect :=
  ({ s with icon := some i }, [Effect.iconVisible])

/-- CDockWidgetTab::setDockAreaWidget: stores the area reference
(modelled by whether it is non-null). -/
def setDockAreaWidget (s : TabState) (hasArea : Bool) : TabState :=
  { s with dockArea := hasArea }

/-- A mouse move belonging to a plain click gesture started at press
position p: the left button is still held, the pointer stays inside the
title area, and the DraggingTab entry condition (more than one tab and
Manhattan distance at least the start-drag distance) does not hold. -/
def plainClickMove (env : Env) (p : QPoint) (ev : MoveEvent) : Prop :=
  ev.leftButtonDown = true ∧
  env.titleAreaContains ev.globalPos = true ∧
  ¬(env.areaCount > 1 ∧
     (ev.pos - p).manhattanLength ≥ env.startDragDistance)

/-- Process a sequence of mouse-move events, keeping only the state. -/
def processMoves (env : Env) (s : TabState) (evs : List MoveEvent) : TabState :=
  evs.foldl (fun st ev => (mouseMoveEvent env st ev).1) s

/-- One invocation of any public entry point of the tab. -/
inductive Step : TabState → TabState → Prop where
  | press (s : TabState) (b : MouseButton) (p : QPoint) :
      Step s (mousePressEvent s b p).1
  | release (env : Env) (s : TabState) (g : QPoint) :
      Step s (mouseReleaseEvent env s g).1
  | move (env : Env) (s : TabState) (ev : MoveEvent) :
      Step s (mouseMoveEvent env s ev).1
  | active (s : TabState) (v : Bool) : Step s (setActiveTab s v).1
  | icon (s : TabState) (i : Nat) : Step s (setIcon s i).1
  | area (s : TabState) (b : Bool) : Step s (setDockAreaWidget s b)

/-- States reachable from the constructor state through the tab's
entry points. -/
inductive Reachable : TabState → Prop where
  | init : Reachable initState
  | step {s s' : TabState} : Reachable s → Step s s' → Reachable s'

/-- In DraggingFloatingWidget the floating-widget reference is
non-null. -/
def FloatInv (s : TabState) : Prop :=
  s.dragState = eDragState.DraggingFloatingWidget →
    s.floatingWidget = some ()

/-- A container that is already floating with one visible area holding
a single tab: the configuration in which startFloating declines. -/
def envDecline : Env :=
  { containerIsFloating := true
    visibleDockAreaCount := 1
    areaCount := 1
    tabIndex := 0
    indexOfContentByTitlePos := fun _ => -1
    titleAreaContains := fun _ => true
    mapFromGlobal := fun p => p
    mapToParent := fun p => p
    dockWidgetMovable := true
    startDragDistance := 10
    areaSize := ⟨100, 20⟩ }

/-- A docked (non-floating) container whose area holds three tabs. -/
def envMulti : Env :=
  { containerIsFloating := false
    visibleDockAreaCount := 2
    areaCount := 3
    tabIndex := 1
    indexOfContentByTitlePos := fun _ => 0
    titleAreaContains := fun _ => true
    mapFromGlobal := fun p => p
    mapToParent := fun p => p
    dockWidgetMovable := true
    startDragDistance := 10
    areaSize := ⟨100, 20⟩ }

/-- A docked container whose area holds two tabs and whose pointer has
left the title area. -/
def envOutside : Env :=
  { containerIsFloating := false
    visibleDockAreaCount := 1
    areaCount := 2
    tabIndex := 0
    indexOfContentByTitlePos := fun _ => -1
    titleAreaContains := fun _ => false
    mapFromGlobal := fun p => p
    mapToParent := fun p => p
    dockWidgetMovable := true
    startDragDistance := 10
    areaSize := ⟨100, 20⟩ }

/-- A tab state in the middle of a tab-reorder drag. -/
def sDragTab : TabState :=
  { dragStartMousePosition := ⟨2, 3⟩
    isActiveTab := false
    dockArea := true
    dragState := eDragState.DraggingTab
    floatingWidget := none
    icon := none }

/-- A move event leaving the title area while the button is held. -/
def floatMoveEv : MoveEvent :=
  { leftButtonDown := true, pos := ⟨30, 3⟩, globalPos := ⟨200, 200⟩ }

/-- The state after a press at (1, 1) followed by a move outside the
title area in the envOutside configuration: a concrete reachable state
in DraggingFloatingWidget. -/
def floatReached : TabState :=
  (mouseMoveEvent envOutside
    (mousePressEvent initState MouseButton.left ⟨1, 1⟩).1 floatMoveEv).1

/-- C10: a mouse-press with any button other than the left button is
forwarded to QFrame::mousePressEvent and leaves the whole tab state
(drag state, press position, active flag, icon, area reference)
unchanged. -/
theorem C10_nonLeftPress_forwards_unchanged (s : TabState) (b : MouseButton)
    (p : QPoint) (h : b ≠ MouseButton.left) :
    mousePressEvent s b p = (s, [Effect.frameMousePressEvent]) := by
  simp [mousePressEvent, h]

/-- Witness for C10 at a concrete right-button press. -/
theorem C10_witness :
    mousePressEvent initState MouseButton.right ⟨3, 4⟩ =
      (initState, [Effect.frameMousePressEvent]) :=
  C10_nonLeftPress_forwards_unchanged initState MouseButton.right ⟨3, 4⟩
    (by decide)

/-- C8: a left-button press at local position (0, 0) stores exactly the
null point, and the release that follows it with no intervening move
emits no clicked notification, because the release handler tests the
stored press position for null. -/
theorem C8_originPress_noClicked (env : Env) (s : TabState) (g : QPoint) :
    (mousePressEvent s MouseButton.left ⟨0, 0⟩).1.dragStartMousePosition.isNull
      = true ∧
    countClicked (mouseReleaseEvent env
      (mousePressEvent s MouseButton.left ⟨0, 0⟩).1 g).2 = 0 := by
  constructor
  · simp [mousePressEvent, QPoint.isNull]
  · simp [mousePressEvent, mouseReleaseEvent, QPoint.isNull, countClicked,
      Effect.isClicked]

/-- C2: startFloating declines exactly when the container is already
floating with a single visible dock area whose owning area holds a
single tab; and a decline changes no state and issues no effect (in
particular no floating window is created and the stored reference is
untouched). -/
theorem C2_startFloating_decline (env : Env) (s : TabState) :
    ((startFloating env s).1 = false ↔
      env.containerIsFloating = true ∧ env.visibleDockAreaCount = 1
        ∧ env.areaCount = 1) ∧
    ((startFloating env s).1 = false →
      (startFloating env s).2.1 = s ∧ (startFloating env s).2.2 = []) := by
  by_cases hd : env.containerIsFloating = true ∧ env.visibleDockAreaCount = 1
      ∧ env.areaCount = 1
  · simp [startFloating, hd]
  · simp [startFloating, hd]

/-- Witness for C2 in the declining configuration. -/
theorem C2_witness :
    (startFloating envDecline initState).2.1 = initState ∧
    (startFloating envDecline initState).2.2 = [] :=
  (C2_startFloating_decline envDecline initState).2 (by decide)

/-- C3: when startFloating succeeds, the drag state becomes
DraggingFloatingWidget and the stored reference is set; with more than
one tab in the area the floating window is created from the dock widget
alone, with exactly one tab it is created from the whole dock area; in
both cases the window is started at the recorded press position with
the area's current size and the container overlay is restricted to the
outer dock areas. -/
theorem C3_startFloating_success (env : Env) (s : TabState)
    (hsucc : (startFloating env s).1 = true) :
    (startFloating env s).2.1.dragState = eDragState.DraggingFloatingWidget ∧
    (startFloating env s).2.1.floatingWidget = some () ∧
    (env.areaCount > 1 →
      (startFloating env s).2.2 =
        [Effect.newFloatingFromDockWidget,
         Effect.startFloatingAt s.dragStartMousePosition env.areaSize,
         Effect.overlayOuterOnly]) ∧
    (env.areaCount = 1 →
      (startFloating env s).2.2 =
        [Effect.newFloatingFromDockArea,
         Effect.startFloatingAt s.dragStartMousePosition env.areaSize,
         Effect.overlayOuterOnly]) := by
  by_cases hd : env.containerIsFloating = true ∧ env.visibleDockAreaCount = 1
      ∧ env.areaCount = 1
  · simp [startFloating, hd] at hsucc
  · refine ⟨by simp [startFloating, hd], by simp [startFloating, hd], ?_, ?_⟩
    · intro hc
      simp [startFloating, hd, hc]
    · intro hc
      have hn : ¬env.areaCount > 1 := by omega
      simp [startFloating, hd, hn]

/-- Witness for C3 in a successful multi-tab configuration. -/
theorem C3_witness :
    (startFloating envMulti initState).2.1.dragState
      = eDragState.DraggingFloatingWidget ∧
    (startFloating envMulti initState).2.2 =
      [Effect.newFloatingFromDockWidget,
       Effect.startFloatingAt initState.dragStartMousePosition
         envMulti.areaSize,
       Effect.overlayOuterOnly] :=
  ⟨(C3_startFloating_success envMulti initState (by decide)).1,
   (C3_startFloating_success envMulti initState (by decide)).2.2.1
     (by decide)⟩

/-- C5: setActiveTab with the stored value is a no-op with no effects;
with a different value it stores the flag, restyles the tab and its
title label and emits activeTabChanged, and a second call with the same
value adds nothing, so two calls with the same value produce exactly
one tab restyle and one notification. -/
theorem C5_setActiveTab_idempotent (s : TabState) (v : Bool) :
    (s.isActiveTab = v → setActiveTab s v = (s, [])) ∧
    (s.isActiveTab ≠ v →
      (setActiveTab s v).1.isActiveTab = v ∧
      (setActiveTab s v).2 =
        [Effect.unpolishPolishTab, Effect.unpolishPolishTitle,
         Effect.updateWidget, Effect.activeTabChanged] ∧
      (setActiveTab (setActiveTab s v).1 v).2 = [] ∧
      countActiveChanged ((setActiveTab s v).2
        ++ (setActiveTab (setActiveTab s v).1 v).2) = 1 ∧
      countRestyleTab ((setActiveTab s v).2
        ++ (setActiveTab (setActiveTab s v).1 v).2) = 1) := by
  constructor
  · intro h
    simp [setActiveTab, h]
  · intro h
    refine ⟨?_, ?_, ?_, ?_, ?_⟩ <;>
      simp [setActiveTab, h, countActiveChanged, countRestyleTab,
        List.countP, List.countP.go, Effect.isActiveTabChanged,
        Effect.isRestyleTab]

/-- Witness for C5: activating an inactive tab. -/
theorem C5_witness :
    (setActiveTab initState true).1.isActiveTab = true ∧
    (setActiveTab initState true).2 =
      [Effect.unpolishPolishTab, Effect.unpolishPolishTitle,
       Effect.updateWidget, Effect.activeTabChanged] ∧
    (setActiveTab (setActiveTab initState true).1 true).2 = [] ∧
    countActiveChanged ((setActiveTab initState true).2
      ++ (setActiveTab (setActiveTab initState true).1 true).2) = 1 ∧
    countRestyleTab ((setActiveTab initState true).2
      ++ (setActiveTab (setActiveTab initState true).1 true).2) = 1 :=
  (C5_setActiveTab_idempotent initState true).2 (by decide)

/-- C7: a mouse move without the left button held, or received in
DraggingInactive, is forwarded to QFrame::mouseMoveEvent and forces the
drag state back to DraggingInactive, so afterwards the tab is in no
dragging state. -/
theorem C7_move_resets_to_inactive (env : Env) (s : TabState) (ev : MoveEvent)
    (h : ev.leftButtonDown = false ∨ s.dragState = eDragState.DraggingInactive) :
    mouseMoveEvent env s ev =
      ({ s with dragState := eDragState.DraggingInactive },
       [Effect.frameMouseMoveEvent]) ∧
    (mouseMoveEvent env s ev).1.dragState = eDragState.DraggingInactive := by
  unfold mouseMoveEvent
  rw [if_pos h]
  exact ⟨rfl, rfl⟩

/-- Witness for C7: a move with the button up. -/
theorem C7_witness :
    mouseMoveEvent envDecline sDragTab
        { leftButtonDown := false, pos := ⟨5, 5⟩, globalPos := ⟨5, 5⟩ } =
      ({ sDragTab with dragState := eDragState.DraggingInactive },
       [Effect.frameMouseMoveEvent]) ∧
    (mouseMoveEvent envDecline sDragTab
        { leftButtonDown := false, pos := ⟨5, 5⟩, globalPos := ⟨5, 5⟩ }).1.dragState
      = eDragState.DraggingInactive :=
  C7_move_resets_to_inactive envDecline sDragTab
    { leftButtonDown := false, pos := ⟨5, 5⟩, globalPos := ⟨5, 5⟩ }
    (Or.inl rfl)

/-- C4: a release in DraggingTab with a dock area set issues exactly
one reorder request, whose toIndex is the hit-tested index when the
hit-test matches and count()-1 when it returns -1; assuming the area
holds at least one tab and the hit-test honours its contract (result -1
or within [0, count)), the toIndex lies in [0, count-1]. -/
theorem C4_release_reorder_bounds (env : Env) (s : TabState) (g : QPoint)
    (hdrag : s.dragState = eDragState.DraggingTab)
    (harea : s.dockArea = true)
    (hcount : 1 ≤ env.areaCount)
    (hhit : env.indexOfContentByTitlePos (env.mapFromGlobal g) = -1 ∨
      (0 ≤ env.indexOfContentByTitlePos (env.mapFromGlobal g) ∧
       env.indexOfContentByTitlePos (env.mapFromGlobal g) < env.areaCount)) :
    ∃ ti : Int,
      (mouseReleaseEvent env s g).2.countP
        (fun e => e matches Effect.reorderDockWidget ..) = 1 ∧
      Effect.reorderDockWidget env.tabIndex ti ∈ (mouseReleaseEvent env s g).2 ∧
      0 ≤ ti ∧ ti ≤ env.areaCount - 1 ∧
      (env.indexOfContentByTitlePos (env.mapFromGlobal g) = -1 →
        ti = env.areaCount - 1) ∧
      (env.indexOfContentByTitlePos (env.mapFromGlobal g) ≠ -1 →
        ti = env.indexOfContentByTitlePos (env.mapFromGlobal g)) := by
  have hcond : s.dragState = eDragState.DraggingTab ∧ s.dockArea = true :=
    ⟨hdrag, harea⟩
  by_cases hmiss : env.indexOfContentByTitlePos (env.mapFromGlobal g) = -1
  · refine ⟨env.areaCount - 1, ?_, ?_, by omega, le_refl _, fun _ => rfl,
      fun hn => absurd hmiss hn⟩
    · simp [mouseReleaseEvent, hcond, hmiss, List.countP, List.countP.go]
      split <;> simp [List.countP, List.countP.go]
    · simp [mouseReleaseEvent, hcond, hmiss]
  · rcases hhit with h1 | ⟨h2, h3⟩
    · exact absurd h1 hmiss
    · refine ⟨env.indexOfContentByTitlePos (env.mapFromGlobal g), ?_, ?_,
        h2, by omega, fun he => absurd he hmiss, fun _ => rfl⟩
      · simp [mouseReleaseEvent, hcond, hmiss, List.countP, List.countP.go]
        split <;> simp [List.countP, List.countP.go]
      · simp [mouseReleaseEvent, hcond, hmiss]

/-- Witness for C4: a release over the first tab of a three-tab area. -/
theorem C4_witness :
    ∃ ti : Int,
      (mouseReleaseEvent envMulti sDragTab ⟨7, 7⟩).2.countP
        (fun e => e matches Effect.reorderDockWidget ..) = 1 ∧
      Effect.reorderDockWidget envMulti.tabIndex ti
        ∈ (mouseReleaseEvent envMulti sDragTab ⟨7, 7⟩).2 ∧
      0 ≤ ti ∧ ti ≤ envMulti.areaCount - 1 ∧
      (envMulti.indexOfContentByTitlePos (envMulti.mapFromGlobal ⟨7, 7⟩) = -1 →
        ti = envMulti.areaCount - 1) ∧
      (envMulti.indexOfContentByTitlePos (envMulti.mapFromGlobal ⟨7, 7⟩) ≠ -1 →
        ti = envMulti.indexOfContentByTitlePos (envMulti.mapFromGlobal ⟨7, 7⟩)) :=
  C4_release_reorder_bounds envMulti sDragTab ⟨7, 7⟩ rfl rfl (by decide)
    (by decide)

/-- C6: from DraggingMousePressed with the left button held, a mouse
move ends in DraggingTab exactly when the pointer is inside the title
area, the area holds more than one tab, and the Manhattan distance from
the recorded press position reaches the application's start-drag
distance. -/
theorem C6_draggingTab_entry_iff (env : Env) (s : TabState) (ev : MoveEvent)
    (hstate : s.dragState = eDragState.DraggingMousePressed)
    (hbtn : ev.leftButtonDown = true) :
    ((mouseMoveEvent env s ev).1.dragState = eDragState.DraggingTab ↔
      env.titleAreaContains ev.globalPos = true ∧
      env.areaCount > 1 ∧
      (ev.pos - s.dragStartMousePosition).manhattanLength
        ≥ env.startDragDistance) := by
  unfold mouseMoveEvent
  rw [if_neg (by simp [hbtn, hstate]), if_neg (by simp [hstate])]
  by_cases htitle : env.titleAreaContains ev.globalPos = false
  · rw [if_pos htitle]
    by_cases hmov : env.dockWidgetMovable = true
    · rw [if_pos hmov]
      unfold startFloating
      by_cases hd : env.containerIsFloating = true
          ∧ env.visibleDockAreaCount = 1 ∧ env.areaCount = 1
      · rw [if_pos hd]
        simp [hstate, htitle]
      · rw [if_neg hd]
        simp [htitle]
    · rw [if_neg hmov]
      simp [hstate, htitle]
  · rw [if_neg htitle]
    have ht : env.titleAreaContains ev.globalPos = true := by
      simpa using htitle
    by_cases hcond : env.areaCount > 1
        ∧ (ev.pos - s.dragStartMousePosition).manhattanLength
            ≥ env.startDragDistance
    · rw [if_pos hcond]
      simp [ht, hcond]
    · rw [if_neg hcond]
      simp only [hstate, ht]
      constructor
      · intro hfalse
        exact absurd hfalse (by simp)
      · intro hr
        exact absurd ⟨hr.2.1, hr.2.2⟩ hcond

/-- Witness for C6: a long move inside the title area of a three-tab
area enters DraggingTab. -/
theorem C6_witness :
    (mouseMoveEvent envMulti
        { initState with dragState := eDragState.DraggingMousePressed }
        { leftButtonDown := true, pos := ⟨50, 0⟩, globalPos := ⟨50, 0⟩ }).1.dragState
      = eDragState.DraggingTab ∧
    envMulti.titleAreaContains (⟨50, 0⟩ : QPoint) = true ∧
    envMulti.areaCount > 1 ∧
    ((⟨50, 0⟩ : QPoint) -
        ({ initState with
            dragState := eDragState.DraggingMousePressed }).dragStartMousePosition).manhattanLength
      ≥ envMulti.startDragDistance :=
  ⟨(C6_draggingTab_entry_iff envMulti
      { initState with dragState := eDragState.DraggingMousePressed }
      { leftButtonDown := true, pos := ⟨50, 0⟩, globalPos := ⟨50, 0⟩ }
      rfl rfl).mpr ⟨by decide, by decide, by decide⟩,
   by decide, by decide, by decide⟩

/-- A plain-click move keeps the state of a tab in DraggingMousePressed
completely unchanged: the handler falls through to default frame
handling. -/
theorem mouseMove_plainClick_fixed (env : Env) (s : TabState) (ev : MoveEvent)
    (hstate : s.dragState = eDragState.DraggingMousePressed)
    (hev : plainClickMove env s.dragStartMousePosition ev) :
    (mouseMoveEvent env s ev).1 = s := by
  obtain ⟨hbtn, ht, hcond⟩ := hev
  unfold mouseMoveEvent
  rw [if_neg (by simp [hbtn, hstate]), if_neg (by simp [hstate]),
    if_neg (by simp [ht]), if_neg hcond]

/-- Processing any sequence of plain-click moves from
DraggingMousePressed leaves the state unchanged. -/
theorem processMoves_plainClick_fixed (env : Env) (p : QPoint)
    (evs : List MoveEvent) (s : TabState)
    (hstate : s.dragState = eDragState.DraggingMousePressed)
    (hpos : s.dragStartMousePosition = p)
    (hevs : ∀ ev ∈ evs, plainClickMove env p ev) :
    processMoves env s evs = s := by
  induction evs with
  | nil => rfl
  | cons ev evs ih =>
      have h1 : (mouseMoveEvent env s ev).1 = s :=
        mouseMove_plainClick_fixed env s ev hstate
          (hpos ▸ hevs ev (List.mem_cons_self ev evs))
      have h2 : processMoves env s (ev :: evs) =
          processMoves env (mouseMoveEvent env s ev).1 evs := rfl
      rw [h2, h1]
      exact ih fun e he => hevs e (List.mem_cons_of_mem ev he)

/-- C1 counterexample: a left-button press at local position (0, 0)
followed immediately by a release emits zero clicked notifications, not
exactly one, because the press stores the null point and the release
handler suppresses clicked for a null stored position. -/
theorem C1_counterexample :
    countClicked (mouseReleaseEvent envDecline
      (mousePressEvent initState MouseButton.left ⟨0, 0⟩).1 ⟨0, 0⟩).2 = 0 := by
  decide

/-- C1 (amended): for every left-button press at a position other than
the null point (0, 0), followed by any sequence of moves below the drag
threshold inside the title area and then a release, exactly one clicked
notification is emitted on release and the drag state returns to
DraggingInactive. -/
theorem C1_plainClick_one_clicked (env : Env) (s : TabState) (p : QPoint)
    (evs : List MoveEvent) (g : QPoint)
    (hp : p.isNull = false)
    (hevs : ∀ ev ∈ evs, plainClickMove env p ev) :
    countClicked (mouseReleaseEvent env
      (processMoves env (mousePressEvent s MouseButton.left p).1 evs) g).2 = 1 ∧
    (mouseReleaseEvent env
      (processMoves env (mousePressEvent s MouseButton.left p).1 evs) g).1.dragState
      = eDragState.DraggingInactive := by
  have hs1 : (mousePressEvent s MouseButton.left p).1 =
      { s with dragStartMousePosition := p
               dragState := eDragState.DraggingMousePressed } := by
    simp [mousePressEvent]
  have hfix : processMoves env (mousePressEvent s MouseButton.left p).1 evs =
      (mousePressEvent s MouseButton.left p).1 := by
    refine processMoves_plainClick_fixed env p evs _ ?_ ?_ hevs
    · rw [hs1]
    · rw [hs1]
  rw [hfix, hs1]
  constructor
  · simp [mouseReleaseEvent, hp, countClicked, Effect.isClicked,
      List.countP, List.countP.go]
  · simp [mouseReleaseEvent]

/-- Witness for C1 (amended): press at (1, 1), one small move, then
release. -/
theorem C1_witness :
    countClicked (mouseReleaseEvent envDecline
      (processMoves envDecline
        (mousePressEvent initState MouseButton.left ⟨1, 1⟩).1
        [{ leftButtonDown := true, pos := ⟨2, 1⟩, globalPos := ⟨9, 9⟩ }])
      ⟨9, 9⟩).2 = 1 ∧
    (mouseReleaseEvent envDecline
      (processMoves envDecline
        (mousePressEvent initState MouseButton.left ⟨1, 1⟩).1
        [{ leftButtonDown := true, pos := ⟨2, 1⟩, globalPos := ⟨9, 9⟩ }])
      ⟨9, 9⟩).1.dragState = eDragState.DraggingInactive :=
  C1_plainClick_one_clicked envDecline initState ⟨1, 1⟩
    [{ leftButtonDown := true, pos := ⟨2, 1⟩, globalPos := ⟨9, 9⟩ }] ⟨9, 9⟩
    (by decide)
    (by
      intro ev hev
      rcases List.mem_singleton.mp hev with rfl
      exact ⟨rfl, rfl, by decide⟩)

/-- mousePressEvent preserves the floating-reference invariant. -/
theorem floatInv_mousePress (s : TabState) (b : MouseButton) (p : QPoint)
    (h : FloatInv s) : FloatInv (mousePressEvent s b p).1 := by
  unfold FloatInv mousePressEvent at *
  split <;> simp_all

/-- mouseReleaseEvent preserves the floating-reference invariant. -/
theorem floatInv_mouseRelease (env : Env) (s : TabState) (g : QPoint) :
    FloatInv (mouseReleaseEvent env s g).1 := by
  unfold FloatInv mouseReleaseEvent
  intro hd
  simp at hd

/-- startFloating establishes the floating-reference invariant. -/
theorem floatInv_startFloating (env : Env) (s : TabState) (h : FloatInv s) :
    FloatInv (startFloating env s).2.1 := by
  unfold FloatInv startFloating at *
  split <;> simp_all

/-- mouseMoveEvent preserves the floating-reference invariant. -/
theorem floatInv_mouseMove (env : Env) (s : TabState) (ev : MoveEvent)
    (h : FloatInv s) : FloatInv (mouseMoveEvent env s ev).1 := by
  unfold mouseMoveEvent
  split
  · intro hd
    simp at hd
  · split
    · exact h
    · split
      · split
        · exact floatInv_startFloating env s h
        · exact h
      · split
        · intro hd
          simp at hd
        · exact h

/-- setActiveTab preserves the floating-reference invariant. -/
theorem floatInv_setActiveTab (s : TabState) (v : Bool) (h : FloatInv s) :
    FloatInv (setActiveTab s v).1 := by
  unfold FloatInv setActiveTab at *
  split <;> simp_all

/-- setIcon preserves the floating-reference invariant. -/
theorem floatInv_setIcon (s : TabState) (i : Nat) (h : FloatInv s) :
    FloatInv (setIcon s i).1 := by
  unfold FloatInv setIcon at *
  simp_all

/-- setDockAreaWidget preserves the floating-reference invariant. -/
theorem floatInv_setDockAreaWidget (s : TabState) (b : Bool) (h : FloatInv s) :
    FloatInv (setDockAreaWidget s b) := by
  unfold FloatInv setDockAreaWidget at *
  simp_all

/-- Every step of the tab preserves the floating-reference invariant. -/
theorem floatInv_step {s s' : TabState} (h : FloatInv s) (hs : Step s s') :
    FloatInv s' := by
  cases hs with
  | press s b p => exact floatInv_mousePress s b p h
  | release env s g => exact floatInv_mouseRelease env s g
  | move env s ev => exact floatInv_mouseMove env s ev h
  | active s v => exact floatInv_setActiveTab s v h
  | icon s i => exact floatInv_setIcon s i h
  | area s b => exact floatInv_setDockAreaWidget s b h

/-- Every reachable state satisfies the floating-reference invariant. -/
theorem floatInv_reachable {s : TabState} (h : Reachable s) : FloatInv s := by
  induction h with
  | init =>
      intro hd
      simp [initState] at hd
  | step _ hstep ih => exact floatInv_step ih hstep

/-- C9: in every state reachable through the tab's entry points,
whenever the drag state is DraggingFloatingWidget the stored
floating-window reference is non-null, so the pointer-follow delegation
in the move handler never dereferences a null reference. -/
theorem C9_floating_reference_nonnull (s : TabState) (h : Reachable s)
    (hd : s.dragState = eDragState.DraggingFloatingWidget) :
    s.floatingWidget = some () :=
  floatInv_reachable h hd

/-- Witness for C9: the concrete reachable state after a press and an
outside-the-title-area move in a docked two-tab configuration. -/
theorem C9_witness : floatReached.floatingWidget = some () :=
  C9_floating_reference_nonnull floatReached
    (Reachable.step
      (Reachable.step Reachable.init
        (Step.press initState MouseButton.left ⟨1, 1⟩))
      (Step.move envOutside
        (mousePressEvent initState MouseButton.left ⟨1, 1⟩).1 floatMoveEv))
    (by decide)

end AdsTab
